import Mathlib

/-!
Verification of the AlagaApp caregiving backend (FastAPI + Firestore).

This file shallowly embeds the data model and the router handlers that the
spec's claims are about.  The external document store is modelled as typed
association lists keyed by document id, and each handler is a pure function
from a store (plus its request payload, the authenticated caller's id, the
fresh document id that `uuid.uuid4()` / `document()` would produce, and the
server clock used to resolve `FieldValue.serverTimestamp()`) to a result,
a new store, and the trace of store operations it performed.

Modelling conventions:
* Firestore documents are represented in their parsed (`*InDB`) shape; a
  field that the handlers test for absence (`dict.get` / `is not None` /
  `exclude_unset`) is an `Option`.  An explicit-`null` field is identified
  with an absent one.
* Dates are days since an arbitrary epoch (`Int`), times of day are `Nat`
  (microseconds of day, `time.max` being the largest value of a Python
  `datetime.time`), `datetime` timestamps are `Nat`.
* `FieldValue.serverTimestamp()` resolves to the `now : Nat` argument.
* Python truthiness of an `Optional[str]` field (`if x.care_profile_id:`)
  is `x ≠ none ∧ x ≠ some ""`.
-/

/-- HTTP error raised by a handler (`HTTPException(status_code=...)`). -/
structure HttpError where
  status_code : Nat
deriving DecidableEq, Repr

/-- Kind of an operation issued against the external document store. -/
inductive OpKind where
  | read
  | write
  | query
deriving DecidableEq, Repr

/-- One operation against the external store: its kind and the collection
it touches. -/
structure StoreOp where
  kind : OpKind
  collection : String
deriving DecidableEq, Repr

/-- Values of the `FrequencyType` literal in `models/medication_model.py`. -/
inductive FrequencyType where
  | DAILY
  | SPECIFIC_DAYS
  | INTERVAL
  | AS_NEEDED
deriving DecidableEq, Repr

/-- `MedicationSchedule` from `models/medication_model.py`. -/
structure MedicationSchedule where
  time : Nat
  frequency_type : FrequencyType
  days_of_week : Option (List String) := none
  interval_days : Option Int := none
deriving DecidableEq, Repr

/-- A stored medication document, in its parsed `MedicationInDB` shape. -/
structure MedicationDoc where
  user_id : String
  care_profile_id : Option String := none
  name : String
  schedules : Option (List MedicationSchedule) := none
  start_date : Int
  end_date : Option Int := none
  prescribing_doctor : Option String := none
  notes : Option String := none
  inventory_count : Option Int := none
  refill_reminder_date : Option Int := none
  is_active : Bool := true
  created_at : Nat
  updated_at : Nat
deriving DecidableEq, Repr

/-- A stored care profile document.  `user_id` is read with
`care_profile_data.get('user_id')`, so it may be absent. -/
structure CareProfileDoc where
  user_id : Option String := none
  full_name : String := ""
  relationship : String := ""
  created_at : Nat
  updated_at : Nat
deriving DecidableEq, Repr

/-- A stored medication-log document (collection `medication_logs`). -/
structure MedicationLogDoc where
  user_id : String
  medication_id : String
  care_profile_id : String
  created_at : Nat
  updated_at : Nat
deriving DecidableEq, Repr

/-- A stored reminder document (collection `reminders`). -/
structure ReminderDoc where
  user_id : String
  care_profile_id : Option String := none
  message : String := ""
  is_active : Bool := true
  created_at : Nat
  updated_at : Nat
deriving DecidableEq, Repr

/-- A stored vital-sign document (collection `vital_signs`), in the
`HealthRecordInDB` shape used by `routers/vitals.py`. -/
structure VitalDoc where
  user_id : String
  care_profile_id : Option String := none
  record_type : String
  created_at : Nat
  updated_at : Nat
deriving DecidableEq, Repr

/-- `SubscriptionFeatures` from `models/subscription.py`. -/
structure SubscriptionFeatures where
  max_care_profiles : Int
  max_tasks_per_day : Int
  max_pill_reminders_per_day : Int
  can_record_multiple_vitals : Bool
  has_enhanced_calendar : Bool
  has_smart_reminders : Bool
deriving DecidableEq, Repr

/-- A stored subscription document (collection `subscriptions`); `tier`
is the stored string value of the `SubscriptionTier` enum. -/
structure SubscriptionDoc where
  user_id : String
  tier : String
  features : Option SubscriptionFeatures := none
  created_at : Nat
  updated_at : Nat
deriving DecidableEq, Repr

/-- The external document store: one association list (document id ↦
document) per collection the embedded handlers touch. -/
structure Store where
  care_profiles : List (String × CareProfileDoc) := []
  medications : List (String × MedicationDoc) := []
  medication_logs : List (String × MedicationLogDoc) := []
  reminders : List (String × ReminderDoc) := []
  vital_signs : List (String × VitalDoc) := []
  subscriptions : List (String × SubscriptionDoc) := []
deriving DecidableEq, Repr

/-- `db.collection(c).document(id).get()`: the first (unique) document with
the given id, if any. -/
def docGet {δ : Type} (coll : List (String × δ)) (id : String) : Option δ :=
  (coll.find? (fun p => p.1 == id)).map Prod.snd

/-- `db.collection(c).document(id).set(d)`: replace the document with this
id if present, else append it. -/
def docSet {δ : Type} : List (String × δ) → String → δ → List (String × δ)
  | [], id, d => [(id, d)]
  | p :: ps, id, d =>
      if p.1 == id then (id, d) :: ps else p :: docSet ps id d

/-- Outcome of one handler invocation: the HTTP-level result, the store
after the request, and the trace of store operations performed. -/
structure HandlerOutcome (α : Type) where
  result : Except HttpError α
  store : Store
  ops : List StoreOp
deriving Repr

/-- Python truthiness of an `Optional[str]`: `None` and `""` are falsy. -/
def strTruthy : Option String → Bool
  | none => false
  | some s => !(s == "")

/-- Helper `authorize_care_profile_access` in `routers/medications.py`:
read the care profile document, 404 if it does not exist, 403 if its
`user_id` field differs from the caller's id, otherwise authorized. -/
def authorize_care_profile_access (s : Store) (care_profile_id : String)
    (current_user_id : String) : Except HttpError Unit :=
  match docGet s.care_profiles care_profile_id with
  | none => .error ⟨404⟩
  | some d =>
      if d.user_id ≠ some current_user_id then .error ⟨403⟩
      else .ok ()

/-- Largest value of a Python `datetime.time` (`time.max`), in microseconds
of day. -/
def timeMax : Nat := 86399999999

/-- The per-schedule branch of `get_today_medications` in
`routers/medications.py`: does this schedule fire on `today`?  `today` and
the medication's `start_date` are days, `today_day_str` is today's weekday
name (`today_date.strftime("%A")`).  The medication's required `start_date`
is always truthy in Python, so the `INTERVAL` guard reduces to
`interval_days is not None`. -/
def scheduleMatchesToday (today : Int) (today_day_str : String)
    (start_date : Int) (sch : MedicationSchedule) : Bool :=
  match sch.frequency_type with
  | .DAILY => true
  | .SPECIFIC_DAYS =>
      match sch.days_of_week with
      | some days => !(days == []) && days.contains today_day_str
      | none => false
  | .INTERVAL =>
      match sch.interval_days with
      | some interval_days =>
          let delta_days := today - start_date
          decide (0 ≤ delta_days) && decide (0 < interval_days) &&
            (delta_days % interval_days == 0)
      | none => false
  | .AS_NEEDED => false

/-- The schedules of a medication that are relevant for today
(`relevant_schedules_for_today` in `get_today_medications`): the filter of
the medication's schedule list, empty when `schedules` is absent. -/
def todayRelevantSchedules (today : Int) (today_day_str : String)
    (m : MedicationDoc) : List MedicationSchedule :=
  match m.schedules with
  | some l => l.filter (scheduleMatchesToday today today_day_str m.start_date)
  | none => []

/-- The medication as placed in the response list: a copy whose schedule
list is replaced by exactly today's relevant schedules
(`temp_med_obj_for_today`). -/
def restrictToToday (today : Int) (today_day_str : String)
    (m : MedicationDoc) : MedicationDoc :=
  { m with schedules := some (todayRelevantSchedules today today_day_str m) }

/-- The start-date/end-date filter and schedule restriction that
`get_today_medications` applies to each active medication: `none` when the
medication is skipped, otherwise the medication with `schedules` replaced
by exactly the schedules relevant for today. -/
def todayFilter (today : Int) (today_day_str : String)
    (p : String × MedicationDoc) : Option (String × MedicationDoc) :=
  let m := p.2
  if today < m.start_date then none
  else if (match m.end_date with | some e => decide (e < today) | none => false) then
    none
  else
    let relevant := todayRelevantSchedules today today_day_str m
    if relevant.isEmpty then none
    else some (p.1, restrictToToday today today_day_str m)

/-- Sort key of `get_today_medications`: the earliest schedule time of the
day (`min(s.time for s in m.schedules)`), `time.max` when the medication
has no schedules. -/
def todaySortKey (m : MedicationDoc) : Nat :=
  match m.schedules with
  | some (h :: t) => t.foldl (fun acc sch => min acc sch.time) h.time
  | some [] => timeMax
  | none => timeMax

/-- Comparator of the final `today_meds_for_response.sort(key=...)`. -/
def todayLE (a b : String × MedicationDoc) : Bool :=
  decide (todaySortKey a.2 ≤ todaySortKey b.2)

/-- Endpoint `GET /medications/today/{care_profile_id}`
(`get_today_medications` in `routers/medications.py`): authorize, query the
active medications of the care profile, keep those scheduled for today with
their schedules restricted to today's, and sort by earliest schedule time. -/
def get_today_medications (s : Store) (care_profile_id current_user_id : String)
    (today : Int) (today_day_str : String) :
    HandlerOutcome (List (String × MedicationDoc)) :=
  match authorize_care_profile_access s care_profile_id current_user_id with
  | .error e => ⟨.error e, s, [⟨.read, "care_profiles"⟩]⟩
  | .ok _ =>
      let active_medications := s.medications.filter
        (fun p => p.2.care_profile_id == some care_profile_id && p.2.is_active)
      let today_meds := active_medications.filterMap (todayFilter today today_day_str)
      ⟨.ok (today_meds.mergeSort todayLE), s,
        [⟨.read, "care_profiles"⟩, ⟨.query, "medications"⟩]⟩

/-- `MedicationCreate` payload (`models/medication_model.py`); an `Option`
field is `none` when the request left it unset. -/
structure MedicationCreate where
  user_id : String
  care_profile_id : Option String := none
  name : String
  schedules : Option (List MedicationSchedule) := none
  start_date : Int
  end_date : Option Int := none
  prescribing_doctor : Option String := none
  notes : Option String := none
  inventory_count : Option Int := none
  refill_reminder_date : Option Int := none
  is_active : Bool := true
deriving DecidableEq, Repr

/-- The document `create_medication` writes: in the dict literal
`{"id": ..., "user_id": current_user.id, **medication_data_to_store, ...}`
the spread of the payload (whose `user_id` is a required field) comes after
the caller's id, so the payload's `user_id` wins. -/
def medicationDocOfCreate (payload : MedicationCreate) (now : Nat) :
    MedicationDoc :=
  { user_id := payload.user_id
    care_profile_id := payload.care_profile_id
    name := payload.name
    schedules := payload.schedules
    start_date := payload.start_date
    end_date := payload.end_date
    prescribing_doctor := payload.prescribing_doctor
    notes := payload.notes
    inventory_count := payload.inventory_count
    refill_reminder_date := payload.refill_reminder_date
    is_active := payload.is_active
    created_at := now
    updated_at := now }

/-- The guard `if medication_create.care_profile_id:` followed by the
authorization call: the ownership check runs only when the payload's
`care_profile_id` is truthy (present and non-empty). -/
def optional_profile_authz (s : Store) (cp_field : Option String)
    (current_user_id : String) : Except HttpError Unit :=
  if strTruthy cp_field then
    match cp_field with
    | some cp => authorize_care_profile_access s cp current_user_id
    | none => .ok ()
  else .ok ()

/-- Endpoint `POST /medications/` (`create_medication`): authorize the
payload's care profile when that field is truthy, store the new document
with server timestamps, read it back and return it. -/
def create_medication (s : Store) (payload : MedicationCreate)
    (current_user_id new_id : String) (now : Nat) :
    HandlerOutcome MedicationDoc :=
  let auth_ops : List StoreOp :=
    if strTruthy payload.care_profile_id then [⟨.read, "care_profiles"⟩] else []
  match optional_profile_authz s payload.care_profile_id current_user_id with
  | .error e => ⟨.error e, s, auth_ops⟩
  | .ok _ =>
      let doc := medicationDocOfCreate payload now
      let s' : Store := { s with medications := docSet s.medications new_id doc }
      match docGet s'.medications new_id with
      | none => ⟨.error ⟨500⟩, s',
          auth_ops ++ [⟨.write, "medications"⟩, ⟨.read, "medications"⟩]⟩
      | some d => ⟨.ok d, s',
          auth_ops ++ [⟨.write, "medications"⟩, ⟨.read, "medications"⟩]⟩

/-- Modelled from the spec: `routers/reminders.py` imports `ReminderCreate`
from `models/reminder_model.py`, which is absent from the source tree; the
payload is modelled with the fields the handler reads (`care_profile_id`,
`user_id`, `is_active` via `dict.get` with default `True`) plus the
reminder message as representative payload. -/
structure ReminderCreate where
  user_id : Option String := none
  care_profile_id : Option String := none
  message : String := ""
  is_active : Option Bool := none
deriving DecidableEq, Repr

/-- The reminder document stored by `create_reminder`: its `user_id` is
forced to the caller's id after dumping the payload. -/
def reminderDocOfCreate (payload : ReminderCreate) (current_user_id : String)
    (now : Nat) : ReminderDoc :=
  { user_id := current_user_id
    care_profile_id := payload.care_profile_id
    message := payload.message
    is_active := payload.is_active.getD true
    created_at := now
    updated_at := now }

/-- The authorization guard block of `create_reminder`: authorize the
truthy care profile, else reject with 400 a payload naming another user.
The `authorize_care_profile_access` that `routers/reminders.py` imports
from `routers/users.py` is absent from the source tree; per the spec it is
the single ownership-equality helper, modelled by the definition from
`routers/medications.py` above. -/
def reminder_create_authz (s : Store) (payload : ReminderCreate)
    (current_user_id : String) : Except HttpError Unit :=
  if strTruthy payload.care_profile_id then
    match payload.care_profile_id with
    | some cp => authorize_care_profile_access s cp current_user_id
    | none => .ok ()
  else if (match payload.user_id with
           | some u => !(u == current_user_id)
           | none => false) then
    .error ⟨400⟩
  else .ok ()

def create_reminder (s : Store) (payload : ReminderCreate)
    (current_user_id new_id : String) (now : Nat) :
    HandlerOutcome ReminderDoc :=
  let auth_ops : List StoreOp :=
    if strTruthy payload.care_profile_id then [⟨.read, "care_profiles"⟩] else []
  match reminder_create_authz s payload current_user_id with
  | .error e => ⟨.error e, s, auth_ops⟩
  | .ok _ =>
      let doc := reminderDocOfCreate payload current_user_id now
      let s' : Store := { s with reminders := docSet s.reminders new_id doc }
      match docGet s'.reminders new_id with
      | none => ⟨.error ⟨500⟩, s',
          auth_ops ++ [⟨.write, "reminders"⟩, ⟨.read, "reminders"⟩]⟩
      | some d => ⟨.ok d, s',
          auth_ops ++ [⟨.write, "reminders"⟩, ⟨.read, "reminders"⟩]⟩

/-- Modelled from the spec: `MedicationLogCreate` is imported from
`models/medication_model.py` but not defined there; it is modelled with the
two fields `log_medication_taken` reads, the referenced medication id and
the owning care profile id (both required). -/
structure MedicationLogCreate where
  medication_id : String
  care_profile_id : String
deriving DecidableEq, Repr

/-- The medication-log document stored by `log_medication_taken`. -/
def medicationLogDocOfCreate (payload : MedicationLogCreate)
    (current_user_id : String) (now : Nat) : MedicationLogDoc :=
  { user_id := current_user_id
    medication_id := payload.medication_id
    care_profile_id := payload.care_profile_id
    created_at := now
    updated_at := now }

/-- Endpoint `POST /medications/log` (`log_medication_taken`): authorize,
store the log with server timestamps, then fetch the referenced medication
and decrement its `inventory_count` when that field is present and
strictly positive, and finally read the log back. -/
def log_medication_taken (s : Store) (payload : MedicationLogCreate)
    (current_user_id new_id : String) (now : Nat) :
    HandlerOutcome MedicationLogDoc :=
  match authorize_care_profile_access s payload.care_profile_id current_user_id with
  | .error e => ⟨.error e, s, [⟨.read, "care_profiles"⟩]⟩
  | .ok _ =>
      let log_doc := medicationLogDocOfCreate payload current_user_id now
      let s1 : Store :=
        { s with medication_logs := docSet s.medication_logs new_id log_doc }
      let ops1 : List StoreOp :=
        [⟨.read, "care_profiles"⟩, ⟨.write, "medication_logs"⟩]
      let invStep : Store × List StoreOp :=
        match docGet s1.medications payload.medication_id with
        | some medication_data =>
            match medication_data.inventory_count with
            | some current_inventory =>
                if 0 < current_inventory then
                  let new_doc : MedicationDoc :=
                    { medication_data with
                      inventory_count := some (current_inventory - 1)
                      updated_at := now }
                  let s2 : Store :=
                    { s1 with medications :=
                        docSet s1.medications payload.medication_id new_doc }
                  (s2, ops1 ++ [⟨.read, "medications"⟩, ⟨.write, "medications"⟩])
                else (s1, ops1 ++ [⟨.read, "medications"⟩])
            | none => (s1, ops1 ++ [⟨.read, "medications"⟩])
        | none => (s1, ops1 ++ [⟨.read, "medications"⟩])
      match docGet invStep.1.medication_logs new_id with
      | none => ⟨.error ⟨500⟩, invStep.1,
          invStep.2 ++ [⟨.read, "medication_logs"⟩]⟩
      | some d => ⟨.ok d, invStep.1,
          invStep.2 ++ [⟨.read, "medication_logs"⟩]⟩

/-- `CareProfileCreate` payload (`models/care_profile.py`), restricted to
its required fields; the handler overwrites its `user_id` with the
caller's id after dumping the payload. -/
structure CareProfileCreate where
  user_id : String
  full_name : String
  relationship : String
deriving DecidableEq, Repr

/-- The care profile document stored by `create_care_profile`: the
caller's id as `user_id`, server timestamps. -/
def careProfileDocOfCreate (payload : CareProfileCreate)
    (current_user_id : String) (now : Nat) : CareProfileDoc :=
  { user_id := some current_user_id
    full_name := payload.full_name
    relationship := payload.relationship
    created_at := now
    updated_at := now }

/-- Endpoint `POST /care_profiles/` (`create_care_profile` in
`routers/care_profiles.py`): store the payload with the caller's id as
`user_id` and server timestamps, then read it back. -/
def create_care_profile (s : Store) (payload : CareProfileCreate)
    (current_user_id new_id : String) (now : Nat) :
    HandlerOutcome CareProfileDoc :=
  let profile_doc : CareProfileDoc :=
    careProfileDocOfCreate payload current_user_id now
  let s' : Store :=
    { s with care_profiles := docSet s.care_profiles new_id profile_doc }
  match docGet s'.care_profiles new_id with
  | none => ⟨.error ⟨500⟩, s',
      [⟨.write, "care_profiles"⟩, ⟨.read, "care_profiles"⟩]⟩
  | some d => ⟨.ok d, s',
      [⟨.write, "care_profiles"⟩, ⟨.read, "care_profiles"⟩]⟩

/-- `MedicationUpdate` payload; `some x` means the field was provided
(`exclude_unset` keeps it), `none` that it was left unset.  An explicitly
null update value is identified with an unset field. -/
structure MedicationUpdate where
  name : Option String := none
  schedules : Option (List MedicationSchedule) := none
  start_date : Option Int := none
  end_date : Option Int := none
  prescribing_doctor : Option String := none
  notes : Option String := none
  inventory_count : Option Int := none
  refill_reminder_date : Option Int := none
  is_active : Option Bool := none
deriving DecidableEq, Repr

/-- Merge semantics of `medication_ref.update(update_data_dict)`: the
provided fields overwrite, `updated_at` is refreshed to the server
timestamp, and every other field (in particular `created_at`) is kept. -/
def applyMedicationUpdate (m : MedicationDoc) (u : MedicationUpdate)
    (now : Nat) : MedicationDoc :=
  { m with
    name := u.name.getD m.name
    schedules := match u.schedules with | some l => some l | none => m.schedules
    start_date := u.start_date.getD m.start_date
    end_date := match u.end_date with | some e => some e | none => m.end_date
    prescribing_doctor :=
      match u.prescribing_doctor with | some v => some v | none => m.prescribing_doctor
    notes := match u.notes with | some v => some v | none => m.notes
    inventory_count :=
      match u.inventory_count with | some v => some v | none => m.inventory_count
    refill_reminder_date :=
      match u.refill_reminder_date with
      | some v => some v
      | none => m.refill_reminder_date
    is_active := u.is_active.getD m.is_active
    updated_at := now }

/-- Helper `get_medication_by_id_internal`: fetch the medication and
authorize against its care profile when that field is present
(a membership test, not a truthiness test, in the source). -/
def get_medication_by_id_internal (s : Store)
    (medication_id current_user_id : String) :
    Except HttpError (Option MedicationDoc) × List StoreOp :=
  match docGet s.medications medication_id with
  | none => (.ok none, [⟨.read, "medications"⟩])
  | some m =>
      match m.care_profile_id with
      | some cp =>
          match authorize_care_profile_access s cp current_user_id with
          | .error e =>
              (.error e, [⟨.read, "medications"⟩, ⟨.read, "care_profiles"⟩])
          | .ok _ =>
              (.ok (some m), [⟨.read, "medications"⟩, ⟨.read, "care_profiles"⟩])
      | none => (.ok (some m), [⟨.read, "medications"⟩])

/-- Endpoint `PUT /medications/{medication_id}` (`update_medication`):
404 when missing, authorize via the helper, then merge-update with a
refreshed `updated_at` and read the document back.  The handler adds
`updated_at` to the update dict before testing it for emptiness, so the
empty-update early return is dead code and every call writes. -/
def update_medication (s : Store) (medication_id : String)
    (payload : MedicationUpdate) (current_user_id : String) (now : Nat) :
    HandlerOutcome MedicationDoc :=
  match get_medication_by_id_internal s medication_id current_user_id with
  | (.error e, ops) => ⟨.error e, s, ops⟩
  | (.ok none, ops) => ⟨.error ⟨404⟩, s, ops⟩
  | (.ok (some m), ops) =>
      let updated := applyMedicationUpdate m payload now
      let s' : Store :=
        { s with medications := docSet s.medications medication_id updated }
      match docGet s'.medications medication_id with
      | none => ⟨.error ⟨500⟩, s',
          ops ++ [⟨.write, "medications"⟩, ⟨.read, "medications"⟩]⟩
      | some d => ⟨.ok d, s',
          ops ++ [⟨.write, "medications"⟩, ⟨.read, "medications"⟩]⟩

/-- `HealthRecordCreate` payload for `POST /vitals/`, restricted to the
fields the handler reads (its `user_id` and `record_type` are required
fields of `HealthRecordBase`). -/
structure VitalCreate where
  user_id : String
  care_profile_id : Option String := none
  record_type : String
deriving DecidableEq, Repr

/-- Modelled from the spec: `VitalSignType` is imported by
`routers/vitals.py` from `models/health_record_model.py` but not defined
there; following that model's `RecordType` listing, whose comment
separates the vital-sign types from the other non-vital record types, it
is the first eight `RecordType` values. -/
def vitalSignTypeValues : List String :=
  ["blood_pressure", "glucose_level", "heart_rate", "temperature",
   "weight", "height", "bmi", "oxygen_saturation"]

/-- The vital-sign document stored by `create_vital_sign`: its `user_id`
is forced to the caller's id after dumping the payload. -/
def vitalDocOfCreate (payload : VitalCreate) (current_user_id : String)
    (now : Nat) : VitalDoc :=
  { user_id := current_user_id
    care_profile_id := payload.care_profile_id
    record_type := payload.record_type
    created_at := now
    updated_at := now }

/-- Helper `get_vital_by_id_authorized` in `routers/vitals.py`: fetch the
vital sign, authorize via its truthy `care_profile_id` or its `user_id`,
then 404 unless its record type is a vital-sign type. -/
def get_vital_by_id_authorized (s : Store) (vital_id current_user_id : String) :
    Except HttpError (Option VitalDoc) × List StoreOp :=
  match docGet s.vital_signs vital_id with
  | none => (.ok none, [⟨.read, "vital_signs"⟩])
  | some v =>
      let step : Except HttpError Unit × List StoreOp :=
        if strTruthy v.care_profile_id then
          ((match v.care_profile_id with
            | some cp => authorize_care_profile_access s cp current_user_id
            | none => .ok ()),
           [⟨.read, "vital_signs"⟩, ⟨.read, "care_profiles"⟩])
        else if v.user_id == current_user_id then
          (.ok (), [⟨.read, "vital_signs"⟩])
        else (.error ⟨403⟩, [⟨.read, "vital_signs"⟩])
      match step.1 with
      | .error e => (.error e, step.2)
      | .ok _ =>
          if v.record_type ∈ vitalSignTypeValues then (.ok (some v), step.2)
          else (.error ⟨404⟩, step.2)

/-- The authorization guard block of `create_vital_sign`: authorize the
truthy care profile, else reject with 400 a payload naming another user
(the payload's `user_id` is a required field). -/
def vital_create_authz (s : Store) (payload : VitalCreate)
    (current_user_id : String) : Except HttpError Unit :=
  if strTruthy payload.care_profile_id then
    match payload.care_profile_id with
    | some cp => authorize_care_profile_access s cp current_user_id
    | none => .ok ()
  else if !(payload.user_id == current_user_id) then .error ⟨400⟩
  else .ok ()

def create_vital_sign (s : Store) (payload : VitalCreate)
    (current_user_id new_id : String) (now : Nat) : HandlerOutcome VitalDoc :=
  let auth_ops : List StoreOp :=
    if strTruthy payload.care_profile_id then [⟨.read, "care_profiles"⟩] else []
  match vital_create_authz s payload current_user_id with
  | .error e => ⟨.error e, s, auth_ops⟩
  | .ok _ =>
      if payload.record_type ∉ vitalSignTypeValues then
        ⟨.error ⟨400⟩, s, auth_ops⟩
      else
        let doc := vitalDocOfCreate payload current_user_id now
        let s' : Store :=
          { s with vital_signs := docSet s.vital_signs new_id doc }
        match get_vital_by_id_authorized s' new_id current_user_id with
        | (.error e, ops2) =>
            ⟨.error e, s', auth_ops ++ [⟨.write, "vital_signs"⟩] ++ ops2⟩
        | (.ok none, ops2) =>
            ⟨.error ⟨500⟩, s', auth_ops ++ [⟨.write, "vital_signs"⟩] ++ ops2⟩
        | (.ok (some d), ops2) =>
            ⟨.ok d, s', auth_ops ++ [⟨.write, "vital_signs"⟩] ++ ops2⟩

/-- The `SubscriptionTier` enum of `models/subscription.py`. -/
inductive SubscriptionTier where
  | FREE
  | PREMIUM
deriving DecidableEq, Repr

/-- String value of the `str`-valued `SubscriptionTier` enum. -/
def SubscriptionTier.value : SubscriptionTier → String
  | .FREE => "free"
  | .PREMIUM => "premium"

/-- `get_default_features` of `models/subscription.py` on the enum. -/
def get_default_features : SubscriptionTier → SubscriptionFeatures
  | .FREE =>
      { max_care_profiles := 1
        max_tasks_per_day := 2
        max_pill_reminders_per_day := 1
        can_record_multiple_vitals := false
        has_enhanced_calendar := false
        has_smart_reminders := false }
  | .PREMIUM =>
      { max_care_profiles := 5
        max_tasks_per_day := 999
        max_pill_reminders_per_day := 999
        can_record_multiple_vitals := true
        has_enhanced_calendar := true
        has_smart_reminders := true }

/-- `get_default_features` on an arbitrary input value: since
`SubscriptionTier` is a `str` enum, the two `==` branch tests compare the
argument with the strings `"free"` and `"premium"`, and any other value
reaches `raise ValueError(...)`. -/
def get_default_features_of_value (tier : String) :
    Except String SubscriptionFeatures :=
  if tier == "free" then .ok (get_default_features .FREE)
  else if tier == "premium" then .ok (get_default_features .PREMIUM)
  else .error ("Unknown subscription tier: " ++ tier)

/-- Helper `get_subscription_by_user_id_authorized`, as called by
`get_my_subscription` with the caller's own id (so its 403 guard cannot
fire): the first stored subscription whose `user_id` is the given id. -/
def subscription_query (s : Store) (user_id : String) :
    Option (String × SubscriptionDoc) :=
  s.subscriptions.find? (fun p => p.2.user_id == user_id)

/-- The free subscription document `get_my_subscription` auto-creates:
`SubscriptionCreate(user_id=..., tier=FREE, features=get_default_features(FREE))`
stored with server timestamps (the constructor's unset fields are dropped
by `exclude_unset`). -/
def defaultFreeSubscription (user_id : String) (now : Nat) : SubscriptionDoc :=
  { user_id := user_id
    tier := "free"
    features := some (get_default_features .FREE)
    created_at := now
    updated_at := now }

/-- Endpoint `GET /subscriptions/me` (`get_my_subscription`): return the
stored subscription unchanged, or create, store and return a default free
one. -/
def get_my_subscription (s : Store) (current_user_id new_id : String)
    (now : Nat) : HandlerOutcome (String × SubscriptionDoc) :=
  match subscription_query s current_user_id with
  | some found => ⟨.ok found, s, [⟨.query, "subscriptions"⟩]⟩
  | none =>
      let doc := defaultFreeSubscription current_user_id now
      let s' : Store :=
        { s with subscriptions := docSet s.subscriptions new_id doc }
      match subscription_query s' current_user_id with
      | none => ⟨.error ⟨500⟩, s',
          [⟨.query, "subscriptions"⟩, ⟨.write, "subscriptions"⟩,
           ⟨.query, "subscriptions"⟩]⟩
      | some created => ⟨.ok created, s',
          [⟨.query, "subscriptions"⟩, ⟨.write, "subscriptions"⟩,
           ⟨.query, "subscriptions"⟩]⟩

/-- Witness world shared by several claims: care profile `p1` owned by
user `u1`, a foreign profile `p2` owned by `u2`. -/
def wProfile : CareProfileDoc :=
  { user_id := some "u1", full_name := "Lola", relationship := "mother",
    created_at := 0, updated_at := 0 }

def wProfile2 : CareProfileDoc :=
  { user_id := some "u2", full_name := "Tito", relationship := "uncle",
    created_at := 0, updated_at := 0 }

def wStore : Store :=
  { care_profiles := [("p1", wProfile), ("p2", wProfile2)] }

/-- Witness world shared by several claims: a medication `m1` of profile
`p1` with a positive inventory and one daily schedule. -/
def wSchedule : MedicationSchedule :=
  { time := 28800000000, frequency_type := .DAILY }

def wMed : MedicationDoc :=
  { user_id := "u1", care_profile_id := some "p1", name := "Aspirin",
    schedules := some [wSchedule], start_date := 0,
    inventory_count := some 2, created_at := 0, updated_at := 0 }

def wStoreMed : Store :=
  { care_profiles := [("p1", wProfile), ("p2", wProfile2)],
    medications := [("m1", wMed)] }

def wLogPayload : MedicationLogCreate :=
  { medication_id := "m1", care_profile_id := "p1" }

/-- Remaining concrete payloads used by witnesses and counterexamples. -/
def wMedCreate : MedicationCreate :=
  { user_id := "u1", care_profile_id := some "p1", name := "Aspirin",
    start_date := 0 }

def wMedCreateForeign : MedicationCreate :=
  { user_id := "u1", care_profile_id := some "p2", name := "Aspirin",
    start_date := 0 }

def wRemCreate : ReminderCreate :=
  { care_profile_id := some "p1", message := "take meds" }

def wCpCreate : CareProfileCreate :=
  { user_id := "u1", full_name := "Lola", relationship := "mother" }

def wVitalCreate : VitalCreate :=
  { user_id := "u1", care_profile_id := some "p1",
    record_type := "heart_rate" }

def wMedUpdate : MedicationUpdate :=
  { notes := some "after lunch" }

/-- The list returned by `get_today_medications` on the witness store. -/
def wTodayRes : List (String × MedicationDoc) :=
  [("m1", restrictToToday 10 "Monday" wMed)]

/-- A store with no documents at all. -/
def emptyStore : Store := {}

/-- A `create_medication` payload whose `care_profile_id` is the falsy
empty string. -/
def c3Payload : MedicationCreate :=
  { user_id := "u1", care_profile_id := some "", name := "Aspirin",
    start_date := 0 }

/-!
Basic lemmas about the document-store primitives.
-/

theorem docGet_docSet_self {δ : Type} (coll : List (String × δ))
    (id : String) (d : δ) : docGet (docSet coll id d) id = some d := by
  induction coll with
  | nil => simp [docGet, docSet]
  | cons p ps ih =>
      by_cases h : p.1 = id
      · simp [docGet, docSet, h]
      · simpa [docGet, docSet, h] using ih

theorem find?_key_cons {δ : Type} (k j : String) (v : δ)
    (l : List (String × δ)) :
    List.find? (fun p => p.1 == j) ((k, v) :: l) =
      if k = j then some (k, v) else List.find? (fun p => p.1 == j) l := by
  by_cases hk : k = j
  · simp [List.find?_cons, hk]
  · simp [List.find?_cons, hk]

theorem docGet_docSet_ne {δ : Type} (coll : List (String × δ))
    (id j : String) (d : δ) (h : j ≠ id) :
    docGet (docSet coll id d) j = docGet coll j := by
  induction coll with
  | nil => simp [docGet, docSet, find?_key_cons, Ne.symm h]
  | cons p ps ih =>
      rcases p with ⟨k, v⟩
      by_cases hp : k = id
      · have h1 : docSet ((k, v) :: ps) id d = (id, d) :: ps := by
          simp [docSet, hp]
        have hkj : k ≠ j := by rw [hp]; exact Ne.symm h
        simp [docGet, h1, find?_key_cons, Ne.symm h, hkj]
      · have h1 : docSet ((k, v) :: ps) id d = (k, v) :: docSet ps id d := by
          simp [docSet, hp]
        by_cases hj : k = j
        · simp only [docGet, h1, find?_key_cons, if_pos hj]
        · simp only [docGet, h1, find?_key_cons, if_neg hj]
          simpa [docGet] using ih

theorem find?_user_cons {δ : Type} (f : δ → String) (uid : String)
    (q : String × δ) (l : List (String × δ)) :
    List.find? (fun p => f p.2 == uid) (q :: l) =
      if f q.2 = uid then some q else List.find? (fun p => f p.2 == uid) l := by
  by_cases hq : f q.2 = uid
  · simp [List.find?_cons, hq]
  · simp [List.find?_cons, hq]

theorem find?_user_docSet {δ : Type} (f : δ → String)
    (coll : List (String × δ)) (id uid : String) (d : δ)
    (hnone : coll.find? (fun p => f p.2 == uid) = none) (hd : f d = uid) :
    (docSet coll id d).find? (fun p => f p.2 == uid) = some (id, d) := by
  induction coll with
  | nil => simp [docSet, find?_user_cons, hd]
  | cons p ps ih =>
      rw [find?_user_cons] at hnone
      by_cases hph : f p.2 = uid
      · rw [if_pos hph] at hnone
        exact Option.noConfusion hnone
      · rw [if_neg hph] at hnone
        by_cases hp : p.1 = id
        · have h1 : docSet (p :: ps) id d = (id, d) :: ps := by
            simp [docSet, hp]
          rw [h1, find?_user_cons]
          simp [hd]
        · have h1 : docSet (p :: ps) id d = p :: docSet ps id d := by
            simp [docSet, hp]
          rw [h1, find?_user_cons, if_neg hph]
          exact ih hnone

/-!
Claim theorems begin here.
-/

/-- C2: `authorize_care_profile_access` decides access by a single
equality check against the profile's stored owner field: it succeeds iff
the care profile document exists and its stored `user_id` equals the
caller's id; it raises HTTP 404 when the document does not exist, HTTP 403
when the stored `user_id` differs from the caller's id, and in no other
case does it grant access (nor raise any other status). -/
theorem C2_authorization_equality_check (s : Store) (cpid uid : String) :
    (authorize_care_profile_access s cpid uid = .ok () ↔
      ∃ d, docGet s.care_profiles cpid = some d ∧ d.user_id = some uid) ∧
    (authorize_care_profile_access s cpid uid = .error ⟨404⟩ ↔
      docGet s.care_profiles cpid = none) ∧
    (authorize_care_profile_access s cpid uid = .error ⟨403⟩ ↔
      ∃ d, docGet s.care_profiles cpid = some d ∧ d.user_id ≠ some uid) ∧
    (∀ e, authorize_care_profile_access s cpid uid = .error e →
      e = ⟨404⟩ ∨ e = ⟨403⟩) := by
  cases h : docGet s.care_profiles cpid with
  | none => simp [authorize_care_profile_access, h]
  | some d =>
      by_cases hu : d.user_id = some uid <;>
        simp [authorize_care_profile_access, h, hu]

theorem C2_authorization_equality_check_witness :
    (authorize_care_profile_access wStore "p1" "u1" = .ok () ↔
      ∃ d, docGet wStore.care_profiles "p1" = some d ∧
        d.user_id = some "u1") := by
  exact (C2_authorization_equality_check wStore "p1" "u1").1

/-- C7: the subscription tier type admits exactly the two values free and
premium; `get_default_features` returns the fixed free feature set for the
free tier and the fixed premium feature set for the premium tier, and
fails with an error for any other input value. -/
theorem C7_two_tier_features :
    (∀ t : SubscriptionTier, t = .FREE ∨ t = .PREMIUM) ∧
    get_default_features .FREE =
      { max_care_profiles := 1, max_tasks_per_day := 2,
        max_pill_reminders_per_day := 1, can_record_multiple_vitals := false,
        has_enhanced_calendar := false, has_smart_reminders := false } ∧
    get_default_features .PREMIUM =
      { max_care_profiles := 5, max_tasks_per_day := 999,
        max_pill_reminders_per_day := 999, can_record_multiple_vitals := true,
        has_enhanced_calendar := true, has_smart_reminders := true } ∧
    get_default_features_of_value "free" = .ok (get_default_features .FREE) ∧
    get_default_features_of_value "premium" =
      .ok (get_default_features .PREMIUM) ∧
    (∀ v : String, v ≠ "free" → v ≠ "premium" →
      get_default_features_of_value v =
        .error ("Unknown subscription tier: " ++ v)) := by
  refine ⟨fun t => by cases t <;> simp, rfl, rfl, rfl, rfl, ?_⟩
  intro v h1 h2
  simp [get_default_features_of_value, h1, h2]

theorem C7_two_tier_features_witness :
    ("gold" : String) ≠ "free" ∧ ("gold" : String) ≠ "premium" ∧
    get_default_features_of_value "gold" =
      .error ("Unknown subscription tier: " ++ "gold") :=
  ⟨by decide, by decide,
    C7_two_tier_features.2.2.2.2.2 "gold" (by decide) (by decide)⟩

/-- C9: `get_my_subscription` never fails for an authenticated user (in
particular never with 404): when a subscription is stored for the user it
is returned unchanged and the store is untouched; when none is stored, a
free-tier subscription with the default free feature set and server
timestamps is created, stored, and returned. -/
theorem C9_get_my_subscription_total (s : Store) (uid new_id : String)
    (now : Nat) :
    (∃ r, (get_my_subscription s uid new_id now).result = .ok r) ∧
    (match subscription_query s uid with
     | some found =>
        get_my_subscription s uid new_id now =
          ⟨.ok found, s, [⟨.query, "subscriptions"⟩]⟩
     | none =>
        get_my_subscription s uid new_id now =
          ⟨.ok (new_id, defaultFreeSubscription uid now),
           { s with subscriptions :=
              docSet s.subscriptions new_id (defaultFreeSubscription uid now) },
           [⟨.query, "subscriptions"⟩, ⟨.write, "subscriptions"⟩,
            ⟨.query, "subscriptions"⟩]⟩) := by
  cases hq : subscription_query s uid with
  | some found =>
      exact ⟨⟨found, by simp [get_my_subscription, hq]⟩,
        by simp [get_my_subscription, hq]⟩
  | none =>
      have hcreated :
          subscription_query
            { s with subscriptions :=
                docSet s.subscriptions new_id (defaultFreeSubscription uid now) }
            uid = some (new_id, defaultFreeSubscription uid now) := by
        have h := find?_user_docSet (fun d : SubscriptionDoc => d.user_id)
          s.subscriptions new_id uid (defaultFreeSubscription uid now)
          (by simpa [subscription_query] using hq) rfl
        simpa [subscription_query] using h
      refine ⟨⟨(new_id, defaultFreeSubscription uid now), ?_⟩, ?_⟩
      · simp [get_my_subscription, hq, hcreated]
      · simp [get_my_subscription, hq, hcreated]

/-!
Branch-by-branch evaluation lemmas for `log_medication_taken`.
-/

theorem log_eval_auth_fail (s : Store) (payload : MedicationLogCreate)
    (uid new_id : String) (now : Nat) (e : HttpError)
    (hauth : authorize_care_profile_access s payload.care_profile_id uid =
      .error e) :
    log_medication_taken s payload uid new_id now =
      ⟨.error e, s, [⟨.read, "care_profiles"⟩]⟩ := by
  simp [log_medication_taken, hauth]

theorem log_eval_no_med (s : Store) (payload : MedicationLogCreate)
    (uid new_id : String) (now : Nat)
    (hauth : authorize_care_profile_access s payload.care_profile_id uid =
      .ok ())
    (hmed : docGet s.medications payload.medication_id = none) :
    log_medication_taken s payload uid new_id now =
      ⟨.ok (medicationLogDocOfCreate payload uid now),
       { s with medication_logs := (docSet s.medication_logs new_id
           (medicationLogDocOfCreate payload uid now)) },
       [⟨.read, "care_profiles"⟩, ⟨.write, "medication_logs"⟩,
        ⟨.read, "medications"⟩, ⟨.read, "medication_logs"⟩]⟩ := by
  simp [log_medication_taken, hauth, hmed, docGet_docSet_self]

theorem log_eval_no_inventory (s : Store) (payload : MedicationLogCreate)
    (uid new_id : String) (now : Nat) (m : MedicationDoc)
    (hauth : authorize_care_profile_access s payload.care_profile_id uid =
      .ok ())
    (hmed : docGet s.medications payload.medication_id = some m)
    (hinv : m.inventory_count = none) :
    log_medication_taken s payload uid new_id now =
      ⟨.ok (medicationLogDocOfCreate payload uid now),
       { s with medication_logs := (docSet s.medication_logs new_id
           (medicationLogDocOfCreate payload uid now)) },
       [⟨.read, "care_profiles"⟩, ⟨.write, "medication_logs"⟩,
        ⟨.read, "medications"⟩, ⟨.read, "medication_logs"⟩]⟩ := by
  simp [log_medication_taken, hauth, hmed, hinv, docGet_docSet_self]

theorem log_eval_nonpos_inventory (s : Store) (payload : MedicationLogCreate)
    (uid new_id : String) (now : Nat) (m : MedicationDoc) (n : Int)
    (hauth : authorize_care_profile_access s payload.care_profile_id uid =
      .ok ())
    (hmed : docGet s.medications payload.medication_id = some m)
    (hinv : m.inventory_count = some n) (hn : n ≤ 0) :
    log_medication_taken s payload uid new_id now =
      ⟨.ok (medicationLogDocOfCreate payload uid now),
       { s with medication_logs := (docSet s.medication_logs new_id
           (medicationLogDocOfCreate payload uid now)) },
       [⟨.read, "care_profiles"⟩, ⟨.write, "medication_logs"⟩,
        ⟨.read, "medications"⟩, ⟨.read, "medication_logs"⟩]⟩ := by
  have hn' : ¬ 0 < n := by omega
  simp [log_medication_taken, hauth, hmed, hinv, hn', docGet_docSet_self]

theorem log_eval_decrement (s : Store) (payload : MedicationLogCreate)
    (uid new_id : String) (now : Nat) (m : MedicationDoc) (n : Int)
    (hauth : authorize_care_profile_access s payload.care_profile_id uid =
      .ok ())
    (hmed : docGet s.medications payload.medication_id = some m)
    (hinv : m.inventory_count = some n) (hn : 0 < n) :
    log_medication_taken s payload uid new_id now =
      ⟨.ok (medicationLogDocOfCreate payload uid now),
       { s with
         medication_logs := (docSet s.medication_logs new_id
           (medicationLogDocOfCreate payload uid now)),
         medications := (docSet s.medications payload.medication_id
           { m with inventory_count := some (n - 1), updated_at := now }) },
       [⟨.read, "care_profiles"⟩, ⟨.write, "medication_logs"⟩,
        ⟨.read, "medications"⟩, ⟨.write, "medications"⟩,
        ⟨.read, "medication_logs"⟩]⟩ := by
  simp [log_medication_taken, hauth, hmed, hinv, hn, docGet_docSet_self]

/-- C8: `log_medication_taken` keeps the medication's `inventory_count`
non-negative: it decrements the count by exactly 1 only when the field is
present and strictly positive; it leaves the medications collection
unchanged when the field is absent, zero, or negative (and also when the
referenced medication document does not exist); and it always stores the
medication-log record regardless of the inventory outcome. -/
theorem C8_log_inventory (s : Store) (payload : MedicationLogCreate)
    (uid new_id : String) (now : Nat)
    (hauth : authorize_care_profile_access s payload.care_profile_id uid =
      .ok ()) :
    (log_medication_taken s payload uid new_id now).result =
      .ok (medicationLogDocOfCreate payload uid now) ∧
    docGet (log_medication_taken s payload uid new_id now).store.medication_logs
      new_id = some (medicationLogDocOfCreate payload uid now) ∧
    (∀ m n, docGet s.medications payload.medication_id = some m →
      m.inventory_count = some n → 0 < n →
      (log_medication_taken s payload uid new_id now).store.medications =
        docSet s.medications payload.medication_id
          { m with inventory_count := some (n - 1), updated_at := now }) ∧
    ((docGet s.medications payload.medication_id = none ∨
      ∃ m, docGet s.medications payload.medication_id = some m ∧
        (m.inventory_count = none ∨
         ∃ n, m.inventory_count = some n ∧ n ≤ 0)) →
      (log_medication_taken s payload uid new_id now).store.medications =
        s.medications) ∧
    (∀ m n, docGet s.medications payload.medication_id = some m →
      m.inventory_count = some n → 0 ≤ n →
      ∀ m' n',
        docGet (log_medication_taken s payload uid new_id now).store.medications
          payload.medication_id = some m' →
        m'.inventory_count = some n' → 0 ≤ n') := by
  rcases Option.eq_none_or_eq_some
      (docGet s.medications payload.medication_id) with hmedo | ⟨m, hmedo⟩
  · rw [log_eval_no_med s payload uid new_id now hauth hmedo]
    refine ⟨rfl, by simp [docGet_docSet_self], ?_, ?_, ?_⟩
    · intro m1 n1 h1 h2 h3
      rw [hmedo] at h1
      exact Option.noConfusion h1
    · intro _
      rfl
    · intro m1 n1 h1 h2 h3 m2 n2 h4 h5
      rw [hmedo] at h1
      exact Option.noConfusion h1
  · rcases Option.eq_none_or_eq_some m.inventory_count with hinvo | ⟨n, hinvo⟩
    · rw [log_eval_no_inventory s payload uid new_id now m hauth hmedo hinvo]
      refine ⟨rfl, by simp [docGet_docSet_self], ?_, ?_, ?_⟩
      · intro m1 n1 h1 h2 h3
        rw [hmedo] at h1
        injection h1 with h1
        subst h1
        rw [hinvo] at h2
        exact Option.noConfusion h2
      · intro _
        rfl
      · intro m1 n1 h1 h2 h3 m2 n2 h4 h5
        rw [hmedo] at h1
        injection h1 with h1
        subst h1
        rw [hinvo] at h2
        exact Option.noConfusion h2
    · by_cases hn : 0 < n
      · rw [log_eval_decrement s payload uid new_id now m n hauth hmedo
          hinvo hn]
        refine ⟨rfl, by simp [docGet_docSet_self], ?_, ?_, ?_⟩
        · intro m1 n1 h1 h2 h3
          rw [hmedo] at h1
          injection h1 with h1
          subst h1
          rw [hinvo] at h2
          injection h2 with h2
          subst h2
          rfl
        · intro hcase
          exfalso
          rcases hcase with h1 | ⟨m1, h1, h2⟩
          · rw [hmedo] at h1
            exact Option.noConfusion h1
          · rw [hmedo] at h1
            injection h1 with h1
            subst h1
            rcases h2 with h2 | ⟨n1, h2, h3⟩
            · rw [hinvo] at h2
              exact Option.noConfusion h2
            · rw [hinvo] at h2
              injection h2 with h2
              subst h2
              omega
        · intro m1 n1 h1 h2 h3 m2 n2 h4 h5
          rw [hmedo] at h1
          injection h1 with h1
          subst h1
          rw [hinvo] at h2
          injection h2 with h2
          subst h2
          simp only [docGet_docSet_self] at h4
          injection h4 with h4
          subst h4
          simp at h5
          omega
      · have hle : n ≤ 0 := by omega
        rw [log_eval_nonpos_inventory s payload uid new_id now m n hauth
          hmedo hinvo hle]
        refine ⟨rfl, by simp [docGet_docSet_self], ?_, ?_, ?_⟩
        · intro m1 n1 h1 h2 h3
          rw [hmedo] at h1
          injection h1 with h1
          subst h1
          rw [hinvo] at h2
          injection h2 with h2
          subst h2
          omega
        · intro _
          rfl
        · intro m1 n1 h1 h2 h3 m2 n2 h4 h5
          rw [hmedo] at h1
          injection h1 with h1
          subst h1
          rw [hinvo] at h2
          injection h2 with h2
          subst h2
          simp only [hmedo] at h4
          injection h4 with h4
          subst h4
          rw [hinvo] at h5
          injection h5 with h5
          omega

theorem C8_log_inventory_witness :
    (authorize_care_profile_access wStoreMed wLogPayload.care_profile_id "u1" =
      .ok ()) ∧
    (log_medication_taken wStoreMed wLogPayload "u1" "log1" 5).result =
      .ok (medicationLogDocOfCreate wLogPayload "u1" 5) :=
  ⟨rfl, (C8_log_inventory wStoreMed wLogPayload "u1" "log1" 5 rfl).1⟩

/-!
Helper lemmas about the authorization helper and guard blocks.
-/

theorem authorize_ok_owner (s : Store) (cp uid : String)
    (h : authorize_care_profile_access s cp uid = .ok ()) :
    ∃ d, docGet s.care_profiles cp = some d ∧ d.user_id = some uid := by
  unfold authorize_care_profile_access at h
  rcases Option.eq_none_or_eq_some (docGet s.care_profiles cp) with hd | ⟨d, hd⟩
  · rw [hd] at h
    exact Except.noConfusion h
  · simp only [hd] at h
    by_cases hu : d.user_id = some uid
    · exact ⟨d, hd, hu⟩
    · rw [if_pos hu] at h
      exact Except.noConfusion h

theorem authorize_missing (s : Store) (cp uid : String)
    (h : docGet s.care_profiles cp = none) :
    authorize_care_profile_access s cp uid = .error ⟨404⟩ := by
  simp [authorize_care_profile_access, h]

theorem authorize_foreign (s : Store) (cp uid : String) (d : CareProfileDoc)
    (hd : docGet s.care_profiles cp = some d) (hu : d.user_id ≠ some uid) :
    authorize_care_profile_access s cp uid = .error ⟨403⟩ := by
  simp [authorize_care_profile_access, hd, hu]

theorem authorize_error_code (s : Store) (cp uid : String) (e : HttpError)
    (h : authorize_care_profile_access s cp uid = .error e) :
    e = ⟨404⟩ ∨ e = ⟨403⟩ := by
  unfold authorize_care_profile_access at h
  rcases Option.eq_none_or_eq_some (docGet s.care_profiles cp) with hd | ⟨d, hd⟩
  · rw [hd] at h
    left
    injection h with h
    exact h.symm
  · simp only [hd] at h
    by_cases hu : d.user_id = some uid
    · rw [if_neg (not_not_intro hu)] at h
      exact Except.noConfusion h
    · rw [if_pos hu] at h
      right
      injection h with h
      exact h.symm

theorem optional_profile_authz_some (s : Store) (cp uid : String)
    (hne : cp ≠ "") :
    optional_profile_authz s (some cp) uid =
      authorize_care_profile_access s cp uid := by
  simp [optional_profile_authz, strTruthy, hne]

theorem reminder_create_authz_some (s : Store) (rp : ReminderCreate)
    (uid cp : String) (hcp : rp.care_profile_id = some cp) (hne : cp ≠ "") :
    reminder_create_authz s rp uid =
      authorize_care_profile_access s cp uid := by
  simp [reminder_create_authz, hcp, strTruthy, hne]

theorem vital_create_authz_some (s : Store) (vp : VitalCreate)
    (uid cp : String) (hcp : vp.care_profile_id = some cp) (hne : cp ≠ "") :
    vital_create_authz s vp uid =
      authorize_care_profile_access s cp uid := by
  simp [vital_create_authz, hcp, strTruthy, hne]

theorem authorize_vital_store (s : Store) (vs : List (String × VitalDoc))
    (cp uid : String) :
    authorize_care_profile_access { s with vital_signs := vs } cp uid =
      authorize_care_profile_access s cp uid := rfl

/-!
Evaluation lemmas for the create and update handlers.
-/

theorem create_medication_eval_fail (s : Store) (mp : MedicationCreate)
    (uid new_id : String) (now : Nat) (e : HttpError)
    (hz : optional_profile_authz s mp.care_profile_id uid = .error e) :
    create_medication s mp uid new_id now =
      ⟨.error e, s,
       if strTruthy mp.care_profile_id then [⟨.read, "care_profiles"⟩]
       else []⟩ := by
  simp [create_medication, hz]

theorem create_medication_eval_ok (s : Store) (mp : MedicationCreate)
    (uid new_id : String) (now : Nat)
    (hz : optional_profile_authz s mp.care_profile_id uid = .ok ()) :
    create_medication s mp uid new_id now =
      ⟨.ok (medicationDocOfCreate mp now),
       { s with medications := (docSet s.medications new_id
           (medicationDocOfCreate mp now)) },
       (if strTruthy mp.care_profile_id then [⟨.read, "care_profiles"⟩]
        else []) ++
         [⟨.write, "medications"⟩, ⟨.read, "medications"⟩]⟩ := by
  simp [create_medication, hz, docGet_docSet_self]

theorem create_reminder_eval_fail (s : Store) (rp : ReminderCreate)
    (uid new_id : String) (now : Nat) (e : HttpError)
    (hz : reminder_create_authz s rp uid = .error e) :
    create_reminder s rp uid new_id now =
      ⟨.error e, s,
       if strTruthy rp.care_profile_id then [⟨.read, "care_profiles"⟩]
       else []⟩ := by
  simp [create_reminder, hz]

theorem create_reminder_eval_ok (s : Store) (rp : ReminderCreate)
    (uid new_id : String) (now : Nat)
    (hz : reminder_create_authz s rp uid = .ok ()) :
    create_reminder s rp uid new_id now =
      ⟨.ok (reminderDocOfCreate rp uid now),
       { s with reminders := (docSet s.reminders new_id
           (reminderDocOfCreate rp uid now)) },
       (if strTruthy rp.care_profile_id then [⟨.read, "care_profiles"⟩]
        else []) ++
         [⟨.write, "reminders"⟩, ⟨.read, "reminders"⟩]⟩ := by
  simp [create_reminder, hz, docGet_docSet_self]

theorem create_care_profile_eval (s : Store) (payload : CareProfileCreate)
    (uid new_id : String) (now : Nat) :
    create_care_profile s payload uid new_id now =
      ⟨.ok (careProfileDocOfCreate payload uid now),
       { s with care_profiles := (docSet s.care_profiles new_id
           (careProfileDocOfCreate payload uid now)) },
       [⟨.write, "care_profiles"⟩, ⟨.read, "care_profiles"⟩]⟩ := by
  simp [create_care_profile, docGet_docSet_self]

theorem update_medication_eval_missing (s : Store) (mid : String)
    (up : MedicationUpdate) (uid : String) (now : Nat)
    (hmed : docGet s.medications mid = none) :
    update_medication s mid up uid now =
      ⟨.error ⟨404⟩, s, [⟨.read, "medications"⟩]⟩ := by
  simp [update_medication, get_medication_by_id_internal, hmed]

theorem update_medication_eval_auth_fail (s : Store) (mid : String)
    (up : MedicationUpdate) (uid : String) (now : Nat)
    (m : MedicationDoc) (cp : String) (e : HttpError)
    (hmed : docGet s.medications mid = some m)
    (hcp : m.care_profile_id = some cp)
    (hauth : authorize_care_profile_access s cp uid = .error e) :
    update_medication s mid up uid now =
      ⟨.error e, s, [⟨.read, "medications"⟩, ⟨.read, "care_profiles"⟩]⟩ := by
  simp [update_medication, get_medication_by_id_internal, hmed, hcp, hauth]

theorem update_medication_eval_ok_profile (s : Store) (mid : String)
    (up : MedicationUpdate) (uid : String) (now : Nat)
    (m : MedicationDoc) (cp : String)
    (hmed : docGet s.medications mid = some m)
    (hcp : m.care_profile_id = some cp)
    (hauth : authorize_care_profile_access s cp uid = .ok ()) :
    update_medication s mid up uid now =
      ⟨.ok (applyMedicationUpdate m up now),
       { s with medications := (docSet s.medications mid
           (applyMedicationUpdate m up now)) },
       [⟨.read, "medications"⟩, ⟨.read, "care_profiles"⟩,
        ⟨.write, "medications"⟩, ⟨.read, "medications"⟩]⟩ := by
  simp [update_medication, get_medication_by_id_internal, hmed, hcp, hauth,
    docGet_docSet_self]

theorem update_medication_eval_ok_nocp (s : Store) (mid : String)
    (up : MedicationUpdate) (uid : String) (now : Nat) (m : MedicationDoc)
    (hmed : docGet s.medications mid = some m)
    (hcp : m.care_profile_id = none) :
    update_medication s mid up uid now =
      ⟨.ok (applyMedicationUpdate m up now),
       { s with medications := (docSet s.medications mid
           (applyMedicationUpdate m up now)) },
       [⟨.read, "medications"⟩, ⟨.write, "medications"⟩,
        ⟨.read, "medications"⟩]⟩ := by
  simp [update_medication, get_medication_by_id_internal, hmed, hcp,
    docGet_docSet_self]

theorem create_vital_eval_fail (s : Store) (vp : VitalCreate)
    (uid new_id : String) (now : Nat) (e : HttpError)
    (hz : vital_create_authz s vp uid = .error e) :
    create_vital_sign s vp uid new_id now =
      ⟨.error e, s,
       if strTruthy vp.care_profile_id then [⟨.read, "care_profiles"⟩]
       else []⟩ := by
  simp [create_vital_sign, hz]

theorem create_vital_eval_bad_type (s : Store) (vp : VitalCreate)
    (uid new_id : String) (now : Nat)
    (hz : vital_create_authz s vp uid = .ok ())
    (hrt : vp.record_type ∉ vitalSignTypeValues) :
    create_vital_sign s vp uid new_id now =
      ⟨.error ⟨400⟩, s,
       if strTruthy vp.care_profile_id then [⟨.read, "care_profiles"⟩]
       else []⟩ := by
  simp [create_vital_sign, hz, hrt]

theorem create_vital_eval_ok_profile (s : Store) (vp : VitalCreate)
    (uid new_id : String) (now : Nat) (cp : String)
    (hcp : vp.care_profile_id = some cp) (hne : cp ≠ "")
    (hauth : authorize_care_profile_access s cp uid = .ok ())
    (hrt : vp.record_type ∈ vitalSignTypeValues) :
    create_vital_sign s vp uid new_id now =
      ⟨.ok (vitalDocOfCreate vp uid now),
       { s with vital_signs := (docSet s.vital_signs new_id
           (vitalDocOfCreate vp uid now)) },
       [⟨.read, "care_profiles"⟩, ⟨.write, "vital_signs"⟩,
        ⟨.read, "vital_signs"⟩, ⟨.read, "care_profiles"⟩]⟩ := by
  have hz : vital_create_authz s vp uid = .ok () := by
    rw [vital_create_authz_some s vp uid cp hcp hne, hauth]
  simp [create_vital_sign, hz, hrt, get_vital_by_id_authorized,
    docGet_docSet_self, vitalDocOfCreate, hcp, strTruthy, hne,
    authorize_vital_store, hauth]

theorem create_vital_eval_ok_self (s : Store) (vp : VitalCreate)
    (uid new_id : String) (now : Nat)
    (ht : strTruthy vp.care_profile_id = false)
    (hu : vp.user_id = uid)
    (hrt : vp.record_type ∈ vitalSignTypeValues) :
    create_vital_sign s vp uid new_id now =
      ⟨.ok (vitalDocOfCreate vp uid now),
       { s with vital_signs := (docSet s.vital_signs new_id
           (vitalDocOfCreate vp uid now)) },
       [⟨.write, "vital_signs"⟩, ⟨.read, "vital_signs"⟩]⟩ := by
  have hz : vital_create_authz s vp uid = .ok () := by
    simp [vital_create_authz, ht, hu]
  simp [create_vital_sign, hz, hrt, get_vital_by_id_authorized,
    docGet_docSet_self, vitalDocOfCreate, ht]

theorem get_my_subscription_eval_some (s : Store) (uid new_id : String)
    (now : Nat) (found : String × SubscriptionDoc)
    (hq : subscription_query s uid = some found) :
    get_my_subscription s uid new_id now =
      ⟨.ok found, s, [⟨.query, "subscriptions"⟩]⟩ := by
  simp [get_my_subscription, hq]

theorem get_my_subscription_eval_none (s : Store) (uid new_id : String)
    (now : Nat) (hq : subscription_query s uid = none) :
    get_my_subscription s uid new_id now =
      ⟨.ok (new_id, defaultFreeSubscription uid now),
       { s with subscriptions := (docSet s.subscriptions new_id
           (defaultFreeSubscription uid now)) },
       [⟨.query, "subscriptions"⟩, ⟨.write, "subscriptions"⟩,
        ⟨.query, "subscriptions"⟩]⟩ := by
  have hcreated :
      subscription_query
        { s with subscriptions :=
            docSet s.subscriptions new_id (defaultFreeSubscription uid now) }
        uid = some (new_id, defaultFreeSubscription uid now) := by
    have h := find?_user_docSet (fun d : SubscriptionDoc => d.user_id)
      s.subscriptions new_id uid (defaultFreeSubscription uid now)
      (by simpa [subscription_query] using hq) rfl
    simpa [subscription_query] using h
  simp [get_my_subscription, hq, hcreated]

/-- C5: for every embedded create or mutating request, the ownership check
precedes the collection operation: when the check on the referenced care
profile fails (profile missing or owned by another user, a 404 or 403),
the handler returns that error and the store is exactly what it was before
the request — nothing is created, modified, or deleted. -/
theorem C5_ownership_check_precedes_write
    (s : Store) (uid new_id : String) (now : Nat) (e : HttpError)
    (mp : MedicationCreate) (rp : ReminderCreate) (vp : VitalCreate)
    (lp : MedicationLogCreate) (mid : String) (up : MedicationUpdate) :
    (∀ cp, mp.care_profile_id = some cp → cp ≠ "" →
      authorize_care_profile_access s cp uid = .error e →
      (create_medication s mp uid new_id now).result = .error e ∧
      (create_medication s mp uid new_id now).store = s ∧
      (e = ⟨404⟩ ∨ e = ⟨403⟩)) ∧
    (∀ cp, rp.care_profile_id = some cp → cp ≠ "" →
      authorize_care_profile_access s cp uid = .error e →
      (create_reminder s rp uid new_id now).result = .error e ∧
      (create_reminder s rp uid new_id now).store = s ∧
      (e = ⟨404⟩ ∨ e = ⟨403⟩)) ∧
    (∀ cp, vp.care_profile_id = some cp → cp ≠ "" →
      authorize_care_profile_access s cp uid = .error e →
      (create_vital_sign s vp uid new_id now).result = .error e ∧
      (create_vital_sign s vp uid new_id now).store = s ∧
      (e = ⟨404⟩ ∨ e = ⟨403⟩)) ∧
    (authorize_care_profile_access s lp.care_profile_id uid = .error e →
      (log_medication_taken s lp uid new_id now).result = .error e ∧
      (log_medication_taken s lp uid new_id now).store = s ∧
      (e = ⟨404⟩ ∨ e = ⟨403⟩)) ∧
    (∀ m cp, docGet s.medications mid = some m →
      m.care_profile_id = some cp →
      authorize_care_profile_access s cp uid = .error e →
      (update_medication s mid up uid now).result = .error e ∧
      (update_medication s mid up uid now).store = s ∧
      (e = ⟨404⟩ ∨ e = ⟨403⟩)) := by
  refine ⟨?_, ?_, ?_, ?_, ?_⟩
  · intro cp hcp hne hauth
    have hz : optional_profile_authz s mp.care_profile_id uid = .error e := by
      rw [hcp, optional_profile_authz_some s cp uid hne, hauth]
    rw [create_medication_eval_fail s mp uid new_id now e hz]
    exact ⟨rfl, rfl, authorize_error_code s cp uid e hauth⟩
  · intro cp hcp hne hauth
    have hz : reminder_create_authz s rp uid = .error e := by
      rw [reminder_create_authz_some s rp uid cp hcp hne, hauth]
    rw [create_reminder_eval_fail s rp uid new_id now e hz]
    exact ⟨rfl, rfl, authorize_error_code s cp uid e hauth⟩
  · intro cp hcp hne hauth
    have hz : vital_create_authz s vp uid = .error e := by
      rw [vital_create_authz_some s vp uid cp hcp hne, hauth]
    rw [create_vital_eval_fail s vp uid new_id now e hz]
    exact ⟨rfl, rfl, authorize_error_code s cp uid e hauth⟩
  · intro hauth
    rw [log_eval_auth_fail s lp uid new_id now e hauth]
    exact ⟨rfl, rfl, authorize_error_code s lp.care_profile_id uid e hauth⟩
  · intro m cp hmed hcp hauth
    rw [update_medication_eval_auth_fail s mid up uid now m cp e hmed hcp
      hauth]
    exact ⟨rfl, rfl, authorize_error_code s cp uid e hauth⟩

theorem C5_ownership_check_precedes_write_witness :
    (create_medication wStore wMedCreateForeign "u1" "m9" 3).result =
      .error ⟨403⟩ ∧
    (create_medication wStore wMedCreateForeign "u1" "m9" 3).store = wStore ∧
    ((⟨403⟩ : HttpError) = ⟨404⟩ ∨ (⟨403⟩ : HttpError) = ⟨403⟩) :=
  (C5_ownership_check_precedes_write wStore "u1" "m9" 3 ⟨403⟩
      wMedCreateForeign {} ⟨"u1", none, "heart_rate"⟩ wLogPayload "m1"
      {}).1 "p2" rfl (by decide) rfl

/-- Counterexample to C3 as stated: with no care profile stored at all, a
`create_medication` payload whose `care_profile_id` is the (falsy) empty
string skips the referential ownership check, succeeds, and stores the
child record, although its `care_profile_id` names no existing profile. -/
theorem C3_counterexample :
    c3Payload.care_profile_id = some "" ∧
    docGet emptyStore.care_profiles "" = none ∧
    (create_medication emptyStore c3Payload "u1" "m1" 0).result =
      .ok (medicationDocOfCreate c3Payload 0) ∧
    docGet (create_medication emptyStore c3Payload "u1" "m1" 0).store.medications
      "m1" = some (medicationDocOfCreate c3Payload 0) :=
  ⟨rfl, rfl, rfl, rfl⟩

/-- C3 (amended): provided the payload's `care_profile_id` is a non-empty
string, a child-creating request (`create_medication`, `create_reminder`,
`log_medication_taken`) succeeds only if that id references an existing
care profile whose `user_id` is the caller's, and a request naming a
missing or foreign profile is rejected with an HTTP error and stores no
child record; `log_medication_taken` enforces this for every payload. -/
theorem C3_referential_check_amended
    (s : Store) (uid new_id : String) (now : Nat)
    (mp : MedicationCreate) (rp : ReminderCreate) (lp : MedicationLogCreate) :
    (∀ cp, mp.care_profile_id = some cp → cp ≠ "" →
      ((∃ d, (create_medication s mp uid new_id now).result = .ok d) →
        ∃ pd, docGet s.care_profiles cp = some pd ∧ pd.user_id = some uid) ∧
      ((docGet s.care_profiles cp = none ∨
        ∃ pd, docGet s.care_profiles cp = some pd ∧ pd.user_id ≠ some uid) →
        (∃ e, (create_medication s mp uid new_id now).result = .error e) ∧
        (create_medication s mp uid new_id now).store = s)) ∧
    (∀ cp, rp.care_profile_id = some cp → cp ≠ "" →
      ((∃ d, (create_reminder s rp uid new_id now).result = .ok d) →
        ∃ pd, docGet s.care_profiles cp = some pd ∧ pd.user_id = some uid) ∧
      ((docGet s.care_profiles cp = none ∨
        ∃ pd, docGet s.care_profiles cp = some pd ∧ pd.user_id ≠ some uid) →
        (∃ e, (create_reminder s rp uid new_id now).result = .error e) ∧
        (create_reminder s rp uid new_id now).store = s)) ∧
    (((∃ d, (log_medication_taken s lp uid new_id now).result = .ok d) →
      ∃ pd, docGet s.care_profiles lp.care_profile_id = some pd ∧
        pd.user_id = some uid) ∧
     ((docGet s.care_profiles lp.care_profile_id = none ∨
       ∃ pd, docGet s.care_profiles lp.care_profile_id = some pd ∧
         pd.user_id ≠ some uid) →
      (∃ e, (log_medication_taken s lp uid new_id now).result = .error e) ∧
      (log_medication_taken s lp uid new_id now).store = s)) := by
  refine ⟨?_, ?_, ?_⟩
  · intro cp hcp hne
    constructor
    · intro hok
      rcases hok with ⟨d, hd⟩
      cases hz : optional_profile_authz s mp.care_profile_id uid with
      | error e =>
          rw [create_medication_eval_fail s mp uid new_id now e hz] at hd
          exact Except.noConfusion hd
      | ok u =>
          cases u
          rw [hcp, optional_profile_authz_some s cp uid hne] at hz
          exact authorize_ok_owner s cp uid hz
    · intro hbad
      have hfail : ∃ e, authorize_care_profile_access s cp uid = .error e := by
        rcases hbad with hnone | ⟨pd, hpd, hfor⟩
        · exact ⟨⟨404⟩, authorize_missing s cp uid hnone⟩
        · exact ⟨⟨403⟩, authorize_foreign s cp uid pd hpd hfor⟩
      rcases hfail with ⟨e, hauth⟩
      have hz : optional_profile_authz s mp.care_profile_id uid = .error e := by
        rw [hcp, optional_profile_authz_some s cp uid hne, hauth]
      rw [create_medication_eval_fail s mp uid new_id now e hz]
      exact ⟨⟨e, rfl⟩, rfl⟩
  · intro cp hcp hne
    constructor
    · intro hok
      rcases hok with ⟨d, hd⟩
      cases hz : reminder_create_authz s rp uid with
      | error e =>
          rw [create_reminder_eval_fail s rp uid new_id now e hz] at hd
          exact Except.noConfusion hd
      | ok u =>
          cases u
          rw [reminder_create_authz_some s rp uid cp hcp hne] at hz
          exact authorize_ok_owner s cp uid hz
    · intro hbad
      have hfail : ∃ e, authorize_care_profile_access s cp uid = .error e := by
        rcases hbad with hnone | ⟨pd, hpd, hfor⟩
        · exact ⟨⟨404⟩, authorize_missing s cp uid hnone⟩
        · exact ⟨⟨403⟩, authorize_foreign s cp uid pd hpd hfor⟩
      rcases hfail with ⟨e, hauth⟩
      have hz : reminder_create_authz s rp uid = .error e := by
        rw [reminder_create_authz_some s rp uid cp hcp hne, hauth]
      rw [create_reminder_eval_fail s rp uid new_id now e hz]
      exact ⟨⟨e, rfl⟩, rfl⟩
  · constructor
    · intro hok
      rcases hok with ⟨d, hd⟩
      cases hz : authorize_care_profile_access s lp.care_profile_id uid with
      | error e =>
          rw [log_eval_auth_fail s lp uid new_id now e hz] at hd
          exact Except.noConfusion hd
      | ok u =>
          cases u
          exact authorize_ok_owner s lp.care_profile_id uid hz
    · intro hbad
      have hfail : ∃ e,
          authorize_care_profile_access s lp.care_profile_id uid =
            .error e := by
        rcases hbad with hnone | ⟨pd, hpd, hfor⟩
        · exact ⟨⟨404⟩, authorize_missing s lp.care_profile_id uid hnone⟩
        · exact ⟨⟨403⟩, authorize_foreign s lp.care_profile_id uid pd hpd hfor⟩
      rcases hfail with ⟨e, hauth⟩
      rw [log_eval_auth_fail s lp uid new_id now e hauth]
      exact ⟨⟨e, rfl⟩, rfl⟩

theorem C3_referential_check_amended_witness :
    ∃ pd, docGet wStoreMed.care_profiles "p1" = some pd ∧
      pd.user_id = some "u1" :=
  ((C3_referential_check_amended wStoreMed "u1" "m9" 3 wMedCreate {}
      wLogPayload).1 "p1" rfl (by decide)).1
    ⟨medicationDocOfCreate wMedCreate 3, rfl⟩

/-- Counterexample to C4 as stated: on a store holding an owned care
profile and a medication with positive inventory, `log_medication_taken`
performs five store operations, not exactly one, and issues writes to two
different collections (`medication_logs`, then `medications`). -/
theorem C4_counterexample :
    (log_medication_taken wStoreMed wLogPayload "u1" "log1" 5).ops =
      [⟨.read, "care_profiles"⟩, ⟨.write, "medication_logs"⟩,
       ⟨.read, "medications"⟩, ⟨.write, "medications"⟩,
       ⟨.read, "medication_logs"⟩] ∧
    (log_medication_taken wStoreMed wLogPayload "u1" "log1" 5).ops.length ≠
      1 ∧
    ((log_medication_taken wStoreMed wLogPayload "u1" "log1" 5).ops.filter
        (fun o => o.kind == .write)).map StoreOp.collection =
      ["medication_logs", "medications"] :=
  ⟨rfl, by decide, rfl⟩

/-- C4 (amended): handlers issue several store operations per request: a
create handler performs the ownership-check read, one write, and a
read-back of the written document; `log_medication_taken` additionally
reads the referenced medication and, when its inventory is positive,
issues a second write — to a second collection — after writing the log. -/
theorem C4_store_operation_traces_amended
    (s : Store) (uid new_id : String) (now : Nat)
    (mp : MedicationCreate) (lp : MedicationLogCreate) :
    (∀ cp, mp.care_profile_id = some cp → cp ≠ "" →
      authorize_care_profile_access s cp uid = .ok () →
      (create_medication s mp uid new_id now).ops =
        [⟨.read, "care_profiles"⟩, ⟨.write, "medications"⟩,
         ⟨.read, "medications"⟩]) ∧
    (∀ m n, authorize_care_profile_access s lp.care_profile_id uid = .ok () →
      docGet s.medications lp.medication_id = some m →
      m.inventory_count = some n → 0 < n →
      (log_medication_taken s lp uid new_id now).ops =
        [⟨.read, "care_profiles"⟩, ⟨.write, "medication_logs"⟩,
         ⟨.read, "medications"⟩, ⟨.write, "medications"⟩,
         ⟨.read, "medication_logs"⟩]) ∧
    (∀ m, authorize_care_profile_access s lp.care_profile_id uid = .ok () →
      docGet s.medications lp.medication_id = some m →
      (m.inventory_count = none ∨
        ∃ n, m.inventory_count = some n ∧ n ≤ 0) →
      (log_medication_taken s lp uid new_id now).ops =
        [⟨.read, "care_profiles"⟩, ⟨.write, "medication_logs"⟩,
         ⟨.read, "medications"⟩, ⟨.read, "medication_logs"⟩]) := by
  refine ⟨?_, ?_, ?_⟩
  · intro cp hcp hne hauth
    have hz : optional_profile_authz s mp.care_profile_id uid = .ok () := by
      rw [hcp, optional_profile_authz_some s cp uid hne, hauth]
    rw [create_medication_eval_ok s mp uid new_id now hz]
    simp [hcp, strTruthy, hne]
  · intro m n hauth hmed hinv hn
    rw [log_eval_decrement s lp uid new_id now m n hauth hmed hinv hn]
  · intro m hauth hmed hcase
    rcases hcase with hno | ⟨n, hinv, hle⟩
    · rw [log_eval_no_inventory s lp uid new_id now m hauth hmed hno]
    · rw [log_eval_nonpos_inventory s lp uid new_id now m n hauth hmed hinv
        hle]

theorem C4_store_operation_traces_amended_witness :
    (log_medication_taken wStoreMed wLogPayload "u1" "log1" 5).ops =
      [⟨.read, "care_profiles"⟩, ⟨.write, "medication_logs"⟩,
       ⟨.read, "medications"⟩, ⟨.write, "medications"⟩,
       ⟨.read, "medication_logs"⟩] :=
  (C4_store_operation_traces_amended wStoreMed "u1" "log1" 5 wMedCreate
      wLogPayload).2.1 wMed 2 rfl rfl rfl (by decide)

/-- C6: every record written by an embedded create endpoint carries
`created_at` and `updated_at` resolved from the server timestamp and an
owning `user_id` (and the payload's `care_profile_id` where given), and
the embedded update endpoint refreshes `updated_at` to the server
timestamp while leaving `created_at` unchanged. -/
theorem C6_timestamps_and_owner_fields
    (s : Store) (uid new_id : String) (now : Nat)
    (mp : MedicationCreate) (rp : ReminderCreate) (cpp : CareProfileCreate)
    (vp : VitalCreate) (lp : MedicationLogCreate)
    (mid : String) (up : MedicationUpdate) :
    (∀ d, (create_medication s mp uid new_id now).result = .ok d →
      docGet (create_medication s mp uid new_id now).store.medications
        new_id = some d ∧
      d.created_at = now ∧ d.updated_at = now ∧
      d.user_id = mp.user_id ∧ d.care_profile_id = mp.care_profile_id) ∧
    (∀ d, (create_reminder s rp uid new_id now).result = .ok d →
      docGet (create_reminder s rp uid new_id now).store.reminders
        new_id = some d ∧
      d.created_at = now ∧ d.updated_at = now ∧ d.user_id = uid ∧
      d.care_profile_id = rp.care_profile_id) ∧
    (∀ d, (create_care_profile s cpp uid new_id now).result = .ok d →
      docGet (create_care_profile s cpp uid new_id now).store.care_profiles
        new_id = some d ∧
      d.created_at = now ∧ d.updated_at = now ∧ d.user_id = some uid) ∧
    (∀ d, (create_vital_sign s vp uid new_id now).result = .ok d →
      docGet (create_vital_sign s vp uid new_id now).store.vital_signs
        new_id = some d ∧
      d.created_at = now ∧ d.updated_at = now ∧ d.user_id = uid ∧
      d.care_profile_id = vp.care_profile_id) ∧
    (∀ d, (log_medication_taken s lp uid new_id now).result = .ok d →
      docGet (log_medication_taken s lp uid new_id now).store.medication_logs
        new_id = some d ∧
      d.created_at = now ∧ d.updated_at = now ∧ d.user_id = uid ∧
      d.care_profile_id = lp.care_profile_id) ∧
    (subscription_query s uid = none →
      ∀ d, (get_my_subscription s uid new_id now).result = .ok d →
        docGet (get_my_subscription s uid new_id now).store.subscriptions
          d.1 = some d.2 ∧
        d.2.created_at = now ∧ d.2.updated_at = now ∧ d.2.user_id = uid) ∧
    (∀ d, (update_medication s mid up uid now).result = .ok d →
      ∃ m0, docGet s.medications mid = some m0 ∧
        docGet (update_medication s mid up uid now).store.medications mid =
          some d ∧
        d.updated_at = now ∧ d.created_at = m0.created_at) := by
  refine ⟨?_, ?_, ?_, ?_, ?_, ?_, ?_⟩
  · intro d hd
    cases hz : optional_profile_authz s mp.care_profile_id uid with
    | error e =>
        rw [create_medication_eval_fail s mp uid new_id now e hz] at hd
        exact Except.noConfusion hd
    | ok u =>
        cases u
        rw [create_medication_eval_ok s mp uid new_id now hz] at hd
        injection hd with hd
        subst hd
        rw [create_medication_eval_ok s mp uid new_id now hz]
        exact ⟨docGet_docSet_self s.medications new_id
          (medicationDocOfCreate mp now), rfl, rfl, rfl, rfl⟩
  · intro d hd
    cases hz : reminder_create_authz s rp uid with
    | error e =>
        rw [create_reminder_eval_fail s rp uid new_id now e hz] at hd
        exact Except.noConfusion hd
    | ok u =>
        cases u
        rw [create_reminder_eval_ok s rp uid new_id now hz] at hd
        injection hd with hd
        subst hd
        rw [create_reminder_eval_ok s rp uid new_id now hz]
        exact ⟨docGet_docSet_self s.reminders new_id
          (reminderDocOfCreate rp uid now), rfl, rfl, rfl, rfl⟩
  · intro d hd
    rw [create_care_profile_eval s cpp uid new_id now] at hd
    injection hd with hd
    subst hd
    rw [create_care_profile_eval s cpp uid new_id now]
    exact ⟨docGet_docSet_self s.care_profiles new_id
      (careProfileDocOfCreate cpp uid now), rfl, rfl, rfl⟩
  · intro d hd
    cases hz : vital_create_authz s vp uid with
    | error e =>
        rw [create_vital_eval_fail s vp uid new_id now e hz] at hd
        exact Except.noConfusion hd
    | ok u =>
        cases u
        by_cases hrt : vp.record_type ∈ vitalSignTypeValues
        · by_cases ht : strTruthy vp.care_profile_id = true
          · rcases Option.eq_none_or_eq_some vp.care_profile_id with
              hcp | ⟨cp, hcp⟩
            · rw [hcp] at ht
              simp [strTruthy] at ht
            · have hne : cp ≠ "" := by
                rw [hcp] at ht
                simpa [strTruthy] using ht
              have hauth : authorize_care_profile_access s cp uid = .ok () := by
                rw [← vital_create_authz_some s vp uid cp hcp hne]
                exact hz
              rw [create_vital_eval_ok_profile s vp uid new_id now cp hcp
                hne hauth hrt] at hd
              injection hd with hd
              subst hd
              rw [create_vital_eval_ok_profile s vp uid new_id now cp hcp
                hne hauth hrt]
              exact ⟨docGet_docSet_self s.vital_signs new_id
                (vitalDocOfCreate vp uid now), rfl, rfl, rfl, rfl⟩
          · have ht' : strTruthy vp.care_profile_id = false := by
              simpa using ht
            by_cases hu : vp.user_id = uid
            · rw [create_vital_eval_ok_self s vp uid new_id now ht' hu
                hrt] at hd
              injection hd with hd
              subst hd
              rw [create_vital_eval_ok_self s vp uid new_id now ht' hu hrt]
              exact ⟨docGet_docSet_self s.vital_signs new_id
                (vitalDocOfCreate vp uid now), rfl, rfl, rfl, rfl⟩
            · exfalso
              rw [vital_create_authz] at hz
              rw [ht'] at hz
              simp [hu] at hz
        · rw [create_vital_eval_bad_type s vp uid new_id now hz hrt] at hd
          exact Except.noConfusion hd
  · intro d hd
    cases hz : authorize_care_profile_access s lp.care_profile_id uid with
    | error e =>
        rw [log_eval_auth_fail s lp uid new_id now e hz] at hd
        exact Except.noConfusion hd
    | ok u =>
        cases u
        rcases Option.eq_none_or_eq_some
            (docGet s.medications lp.medication_id) with hmed | ⟨m, hmed⟩
        · rw [log_eval_no_med s lp uid new_id now hz hmed] at hd
          injection hd with hd
          subst hd
          rw [log_eval_no_med s lp uid new_id now hz hmed]
          exact ⟨docGet_docSet_self s.medication_logs new_id
            (medicationLogDocOfCreate lp uid now), rfl, rfl, rfl, rfl⟩
        · rcases Option.eq_none_or_eq_some m.inventory_count with
            hinv | ⟨n, hinv⟩
          · rw [log_eval_no_inventory s lp uid new_id now m hz hmed
              hinv] at hd
            injection hd with hd
            subst hd
            rw [log_eval_no_inventory s lp uid new_id now m hz hmed hinv]
            exact ⟨docGet_docSet_self s.medication_logs new_id
              (medicationLogDocOfCreate lp uid now), rfl, rfl, rfl, rfl⟩
          · by_cases hn : 0 < n
            · rw [log_eval_decrement s lp uid new_id now m n hz hmed hinv
                hn] at hd
              injection hd with hd
              subst hd
              rw [log_eval_decrement s lp uid new_id now m n hz hmed hinv
                hn]
              exact ⟨docGet_docSet_self s.medication_logs new_id
                (medicationLogDocOfCreate lp uid now), rfl, rfl, rfl, rfl⟩
            · have hle : n ≤ 0 := by omega
              rw [log_eval_nonpos_inventory s lp uid new_id now m n hz hmed
                hinv hle] at hd
              injection hd with hd
              subst hd
              rw [log_eval_nonpos_inventory s lp uid new_id now m n hz hmed
                hinv hle]
              exact ⟨docGet_docSet_self s.medication_logs new_id
                (medicationLogDocOfCreate lp uid now), rfl, rfl, rfl, rfl⟩
  · intro hq d hd
    rw [get_my_subscription_eval_none s uid new_id now hq] at hd
    injection hd with hd
    subst hd
    rw [get_my_subscription_eval_none s uid new_id now hq]
    exact ⟨docGet_docSet_self s.subscriptions new_id
      (defaultFreeSubscription uid now), rfl, rfl, rfl⟩
  · intro d hd
    rcases Option.eq_none_or_eq_some (docGet s.medications mid) with
      hmed | ⟨m, hmed⟩
    · rw [update_medication_eval_missing s mid up uid now hmed] at hd
      exact Except.noConfusion hd
    · rcases Option.eq_none_or_eq_some m.care_profile_id with
        hcp | ⟨cp, hcp⟩
      · rw [update_medication_eval_ok_nocp s mid up uid now m hmed hcp] at hd
        injection hd with hd
        subst hd
        rw [update_medication_eval_ok_nocp s mid up uid now m hmed hcp]
        exact ⟨m, hmed, docGet_docSet_self s.medications mid
          (applyMedicationUpdate m up now), rfl, rfl⟩
      · cases hz : authorize_care_profile_access s cp uid with
        | error e =>
            rw [update_medication_eval_auth_fail s mid up uid now m cp e
              hmed hcp hz] at hd
            exact Except.noConfusion hd
        | ok u =>
            cases u
            rw [update_medication_eval_ok_profile s mid up uid now m cp
              hmed hcp hz] at hd
            injection hd with hd
            subst hd
            rw [update_medication_eval_ok_profile s mid up uid now m cp
              hmed hcp hz]
            exact ⟨m, hmed, docGet_docSet_self s.medications mid
              (applyMedicationUpdate m up now), rfl, rfl⟩

theorem C6_timestamps_and_owner_fields_witness :
    docGet (create_medication wStoreMed wMedCreate "u1" "m9" 3).store.medications
      "m9" = some (medicationDocOfCreate wMedCreate 3) ∧
    (medicationDocOfCreate wMedCreate 3).created_at = 3 ∧
    (medicationDocOfCreate wMedCreate 3).updated_at = 3 ∧
    (medicationDocOfCreate wMedCreate 3).user_id = wMedCreate.user_id ∧
    (medicationDocOfCreate wMedCreate 3).care_profile_id =
      wMedCreate.care_profile_id :=
  (C6_timestamps_and_owner_fields wStoreMed "u1" "m9" 3 wMedCreate wRemCreate
      wCpCreate wVitalCreate wLogPayload "m1" wMedUpdate).1
    (medicationDocOfCreate wMedCreate 3) rfl

/-!
Lemmas for the today-medications endpoint.
-/

theorem mem_todayRelevantSchedules (today : Int) (day : String)
    (m : MedicationDoc) (sch : MedicationSchedule) :
    sch ∈ todayRelevantSchedules today day m ↔
      sch ∈ m.schedules.getD [] ∧
      scheduleMatchesToday today day m.start_date sch = true := by
  rcases Option.eq_none_or_eq_some m.schedules with h | ⟨l, h⟩ <;>
    simp [todayRelevantSchedules, h]

theorem todayFilter_some_intro (today : Int) (day : String) (i : String)
    (m : MedicationDoc) (h1 : m.start_date ≤ today)
    (h2 : ∀ e, m.end_date = some e → today ≤ e)
    (h3 : todayRelevantSchedules today day m ≠ []) :
    todayFilter today day (i, m) =
      some (i, restrictToToday today day m) := by
  have hs : ¬ today < m.start_date := by omega
  have hend : (match m.end_date with
      | some e => decide (e < today)
      | none => false) = false := by
    rcases Option.eq_none_or_eq_some m.end_date with he | ⟨e, he⟩
    · rw [he]
    · rw [he]
      have h := h2 e he
      simp
      omega
  have hne : (todayRelevantSchedules today day m).isEmpty = false :=
    List.isEmpty_eq_false.2 h3
  simp [todayFilter, hs, hend, hne]

theorem todayFilter_some_elim (today : Int) (day : String)
    (p q : String × MedicationDoc)
    (h : todayFilter today day p = some q) :
    q = (p.1, restrictToToday today day p.2) ∧
    p.2.start_date ≤ today ∧
    (∀ e, p.2.end_date = some e → today ≤ e) ∧
    todayRelevantSchedules today day p.2 ≠ [] := by
  rcases p with ⟨i, m⟩
  simp only [todayFilter] at h
  split at h
  next hs => exact Option.noConfusion h
  next hs =>
    split at h
    next hend => exact Option.noConfusion h
    next hend =>
      split at h
      next hemp => exact Option.noConfusion h
      next hemp =>
        injection h with h
        refine ⟨h.symm, ?_, ?_, ?_⟩
        · simp only [not_lt] at hs
          simpa using hs
        · intro e he
          rw [he] at hend
          simp at hend
          omega
        · intro hnil
          rw [hnil] at hemp
          simp at hemp

theorem nodup_keys_eq {δ : Type} (l : List (String × δ))
    (hnd : (l.map Prod.fst).Nodup) (i : String) (a b : δ)
    (ha : (i, a) ∈ l) (hb : (i, b) ∈ l) : a = b := by
  induction l with
  | nil => cases ha
  | cons p ps ih =>
      rw [List.map_cons, List.nodup_cons] at hnd
      rcases List.mem_cons.1 ha with ha1 | ha1 <;>
        rcases List.mem_cons.1 hb with hb1 | hb1
      · have h := ha1.trans hb1.symm
        simpa using h
      · exfalso
        apply hnd.1
        have hmap : i ∈ ps.map Prod.fst :=
          List.mem_map_of_mem Prod.fst hb1
        rw [← ha1]
        exact hmap
      · exfalso
        apply hnd.1
        have hmap : i ∈ ps.map Prod.fst :=
          List.mem_map_of_mem Prod.fst ha1
        rw [← hb1]
        exact hmap
      · exact ih hnd.2 ha1 hb1

theorem today_eval_fail (s : Store) (cpid uid : String) (today : Int)
    (day : String) (e : HttpError)
    (hz : authorize_care_profile_access s cpid uid = .error e) :
    get_today_medications s cpid uid today day =
      ⟨.error e, s, [⟨.read, "care_profiles"⟩]⟩ := by
  simp [get_today_medications, hz]

theorem today_eval_ok (s : Store) (cpid uid : String) (today : Int)
    (day : String)
    (hz : authorize_care_profile_access s cpid uid = .ok ()) :
    get_today_medications s cpid uid today day =
      ⟨.ok (((s.medications.filter
          (fun p => p.2.care_profile_id == some cpid &&
            p.2.is_active)).filterMap (todayFilter today day)).mergeSort
          todayLE), s,
       [⟨.read, "care_profiles"⟩, ⟨.query, "medications"⟩]⟩ := by
  simp [get_today_medications, hz]

/-- C1: for every care profile and medication stored for it (document ids
unique), on an authorized request `get_today_medications` returns that
medication — with its schedule list restricted to exactly the matching
schedules — iff it is active, its `start_date` is not after today, its
`end_date` is absent or not before today, and at least one schedule
matches today; and a schedule matches today exactly by the three calendar
branches: `DAILY` always, `SPECIFIC_DAYS` iff today's weekday name is in
its `days_of_week`, `INTERVAL` iff `interval_days` is present and
positive and the day count since `start_date` is non-negative and
divisible by it, `AS_NEEDED` never. -/
theorem C1_today_medications (s : Store) (cpid uid : String) (today : Int)
    (day : String) (i : String) (m : MedicationDoc)
    (hnd : (s.medications.map Prod.fst).Nodup)
    (hmem : (i, m) ∈ s.medications)
    (hcp : m.care_profile_id = some cpid)
    (res : List (String × MedicationDoc))
    (hok : (get_today_medications s cpid uid today day).result = .ok res) :
    ((i, restrictToToday today day m) ∈ res ↔
      (m.is_active = true ∧ m.start_date ≤ today ∧
       (∀ e, m.end_date = some e → today ≤ e) ∧
       ∃ sch ∈ m.schedules.getD [],
         scheduleMatchesToday today day m.start_date sch = true)) ∧
    (∀ sch : MedicationSchedule,
      scheduleMatchesToday today day m.start_date sch = true ↔
        (sch.frequency_type = .DAILY ∨
         (sch.frequency_type = .SPECIFIC_DAYS ∧
           ∃ days, sch.days_of_week = some days ∧ day ∈ days) ∨
         (sch.frequency_type = .INTERVAL ∧
           ∃ k, sch.interval_days = some k ∧
             0 ≤ today - m.start_date ∧ 0 < k ∧
             (today - m.start_date) % k = 0))) := by
  cases hz : authorize_care_profile_access s cpid uid with
  | error e =>
      rw [today_eval_fail s cpid uid today day e hz] at hok
      exact Except.noConfusion hok
  | ok u =>
      cases u
      rw [today_eval_ok s cpid uid today day hz] at hok
      injection hok with hok
      subst hok
      constructor
      · rw [(List.mergeSort_perm _ todayLE).mem_iff]
        constructor
        · intro hin
          rcases List.mem_filterMap.1 hin with ⟨p, hpmem, hpf⟩
          rcases List.mem_filter.1 hpmem with ⟨hpm, hpred⟩
          rcases todayFilter_some_elim today day p _ hpf with
            ⟨hq, hstart, hend, hrel⟩
          rcases p with ⟨j, m'⟩
          have hij : i = j := congrArg Prod.fst hq
          subst hij
          have hm : m' = m := nodup_keys_eq s.medications hnd i m' m hpm hmem
          subst hm
          simp only [hcp] at hpred
          simp at hpred
          rcases List.exists_mem_of_ne_nil _ hrel with ⟨sch, hsch⟩
          rcases (mem_todayRelevantSchedules today day m' sch).1 hsch with
            ⟨hsm, hsmatch⟩
          exact ⟨hpred, hstart, hend, sch, hsm, hsmatch⟩
        · rintro ⟨hact, hstart, hend, sch, hsm, hsmatch⟩
          have hrelne : todayRelevantSchedules today day m ≠ [] :=
            List.ne_nil_of_mem
              ((mem_todayRelevantSchedules today day m sch).2 ⟨hsm, hsmatch⟩)
          refine List.mem_filterMap.2 ⟨(i, m), ?_, ?_⟩
          · exact List.mem_filter.2 ⟨hmem, by simp [hcp, hact]⟩
          · exact todayFilter_some_intro today day i m hstart hend hrelne
      · intro sch
        rcases sch with ⟨t, ft, dow, iv⟩
        cases ft with
        | DAILY => simp [scheduleMatchesToday]
        | SPECIFIC_DAYS =>
            rcases Option.eq_none_or_eq_some dow with hd | ⟨days, hd⟩
            · subst hd
              simp [scheduleMatchesToday]
            · subst hd
              simp [scheduleMatchesToday, List.contains_iff_exists_mem_beq]
              exact fun h => List.ne_nil_of_mem h
        | INTERVAL =>
            rcases Option.eq_none_or_eq_some iv with hk | ⟨k, hk⟩
            · subst hk
              simp [scheduleMatchesToday]
            · subst hk
              simp [scheduleMatchesToday]
              omega
        | AS_NEEDED => simp [scheduleMatchesToday]

theorem wToday_result :
    (get_today_medications wStoreMed "p1" "u1" 10 "Monday").result =
      .ok wTodayRes := by
  rw [today_eval_ok wStoreMed "p1" "u1" 10 "Monday" rfl]
  have h1 : (wStoreMed.medications.filter
      (fun p => p.2.care_profile_id == some "p1" &&
        p.2.is_active)).filterMap (todayFilter 10 "Monday") =
      [("m1", restrictToToday 10 "Monday" wMed)] := rfl
  rw [h1, List.mergeSort_singleton]
  rfl

theorem C1_today_medications_witness :
    ((("m1", restrictToToday 10 "Monday" wMed) ∈ wTodayRes ↔
      (wMed.is_active = true ∧ wMed.start_date ≤ 10 ∧
       (∀ e, wMed.end_date = some e → 10 ≤ e) ∧
       ∃ sch ∈ wMed.schedules.getD [],
         scheduleMatchesToday 10 "Monday" wMed.start_date sch = true)) ∧
    (∀ sch : MedicationSchedule,
      scheduleMatchesToday 10 "Monday" wMed.start_date sch = true ↔
        (sch.frequency_type = .DAILY ∨
         (sch.frequency_type = .SPECIFIC_DAYS ∧
           ∃ days, sch.days_of_week = some days ∧ "Monday" ∈ days) ∨
         (sch.frequency_type = .INTERVAL ∧
           ∃ k, sch.interval_days = some k ∧
             0 ≤ 10 - wMed.start_date ∧ 0 < k ∧
             (10 - wMed.start_date) % k = 0)))) :=
  C1_today_medications wStoreMed "p1" "u1" 10 "Monday" "m1" wMed
    (by decide) (by decide) rfl wTodayRes wToday_result

/-- C10: the list returned by `get_today_medications` is sorted in
non-decreasing order of each element's earliest schedule time of the day,
and every element of the returned list has a non-empty schedule list. -/
theorem C10_sorted_and_nonempty (s : Store) (cpid uid : String)
    (today : Int) (day : String) (res : List (String × MedicationDoc))
    (hok : (get_today_medications s cpid uid today day).result = .ok res) :
    List.Pairwise (fun a b : String × MedicationDoc =>
      todaySortKey a.2 ≤ todaySortKey b.2) res ∧
    ∀ p ∈ res, ∃ l, p.2.schedules = some l ∧ l ≠ [] := by
  cases hz : authorize_care_profile_access s cpid uid with
  | error e =>
      rw [today_eval_fail s cpid uid today day e hz] at hok
      exact Except.noConfusion hok
  | ok u =>
      cases u
      rw [today_eval_ok s cpid uid today day hz] at hok
      injection hok with hok
      subst hok
      constructor
      · have htrans : ∀ a b c : String × MedicationDoc,
            todayLE a b → todayLE b c → todayLE a c := by
          intro a b c hab hbc
          simp only [todayLE, decide_eq_true_eq] at hab hbc ⊢
          omega
        have htotal : ∀ a b : String × MedicationDoc,
            (todayLE a b || todayLE b a) = true := by
          intro a b
          by_cases h : todaySortKey a.2 ≤ todaySortKey b.2
          · simp [todayLE, h]
          · simp [todayLE, h]
            omega
        have hsorted := List.sorted_mergeSort htrans htotal
          ((s.medications.filter
            (fun p => p.2.care_profile_id == some cpid &&
              p.2.is_active)).filterMap (todayFilter today day))
        exact hsorted.imp (fun hab => by
          simpa [todayLE, decide_eq_true_eq] using hab)
      · intro p hp
        rw [(List.mergeSort_perm _ todayLE).mem_iff] at hp
        rcases List.mem_filterMap.1 hp with ⟨q, hqmem, hqf⟩
        rcases todayFilter_some_elim today day q p hqf with ⟨hq, h1, h2, hrel⟩
        subst hq
        exact ⟨todayRelevantSchedules today day q.2, rfl, hrel⟩

theorem C10_sorted_and_nonempty_witness :
    List.Pairwise (fun a b : String × MedicationDoc =>
      todaySortKey a.2 ≤ todaySortKey b.2) wTodayRes ∧
    ∀ p ∈ wTodayRes, ∃ l, p.2.schedules = some l ∧ l ≠ [] :=
  C10_sorted_and_nonempty wStoreMed "p1" "u1" 10 "Monday" wTodayRes
    wToday_result
